import Mathlib

/-!
Verification of the FireTalk matchmaking & session engine (src/main.py)
against its natural-language specification.

The Python source keeps loosely-typed documents in a SQL store: TEXT
columns holding JSON (`search_prefs`, `languages`, `kinks`) are read with
`json.loads`, which either yields a well-typed value or raises.  We embed
such a column as `Stored α`: `missing` is SQL NULL (the source reads it
through `x or '{}'` / `x or '[]'`), `malformed` is text on which
`json.loads` raises, and `ok v` is text parsing to `v`.  Python `None`
for scalar columns is `Option`.  Times and ids are `Nat`.
-/

set_option linter.unusedVariables false
set_option linter.unnecessarySeqFocus false

namespace FireTalk

/-- A stored text column that the source parses with `json.loads`. -/
inductive Stored (α : Type) : Type where
  | missing : Stored α
  | malformed : Stored α
  | ok : α → Stored α
deriving DecidableEq, Repr

/-- The parsed shape of the `search_prefs` JSON object.  A `none` field
means the key is absent from the object (the source then defaults it to
`"Any"` via `dict.get`). -/
structure SearchPrefs where
  gender : Option String := none
  language : Option String := none
deriving DecidableEq, Repr

/-- `json.loads(row.get("search_prefs") or '{}')`: NULL parses to the
empty object, malformed text raises (`none`). -/
def loadPrefs : Stored SearchPrefs → Option SearchPrefs
  | .missing => some {}
  | .malformed => none
  | .ok p => some p

/-- `json.loads(row.get("languages") or '[]')`: NULL parses to the empty
list, malformed text raises (`none`). -/
def loadLangs : Stored (List String) → Option (List String)
  | .missing => some []
  | .malformed => none
  | .ok l => some l

/-- The joined `users LEFT JOIN sessions` record returned by
`get_user_data`. -/
structure UserRow where
  user_id : Nat
  name : Option String := none
  gender : Option String := none
  age : Option Nat := none
  languages : Stored (List String) := .missing
  interests : Option String := none
  is_premium : Nat := 0
  intent : Option String := none
  kinks : Stored (List String) := .missing
  show_active_status : Nat := 1
  state : String := "idle"
  partner_id : Option Nat := none
  searching_message_id : Option Nat := none
  pinned_message_id : Option Nat := none
  chat_start_time : Option Nat := none
  last_chat_id : Option Nat := none
  search_prefs : Stored SearchPrefs := .missing
  original_search_prefs : Stored SearchPrefs := .missing
deriving DecidableEq, Repr

/-- The source's open-intent sentinel `"🤫 Anything Goes"`. -/
def anythingGoes : String := "🤫 Anything Goes"

/-- Python truthiness of a TEXT column: `None` and `""` are falsy. -/
def truthyStr : Option String → Option String
  | some s => if s = "" then none else some s
  | none => none

/-- The intent guard of `check_mutual_match`:
`intent1 and intent2 and intent1 != AG and intent2 != AG and intent1 != intent2`. -/
def intentsIncompatible (i1 i2 : Option String) : Bool :=
  match truthyStr i1, truthyStr i2 with
  | some a, some b => decide (a ≠ anythingGoes ∧ b ≠ anythingGoes ∧ a ≠ b)
  | _, _ => false

/-- The body of `check_mutual_match` (src/main.py:656-690) inside its
`try:` block; `none` models an exception escaping to the `except` arm. -/
def check_mutual_match_run (user1 user2 : UserRow) : Option Bool := do
  if intentsIncompatible user1.intent user2.intent then return false
  let prefs1 ← loadPrefs user1.search_prefs
  let prefs2 ← loadPrefs user2.search_prefs
  let gender_pref1 := prefs1.gender.getD "Any"
  let lang_pref1 := prefs1.language.getD "Any"
  let gender_pref2 := prefs2.gender.getD "Any"
  let lang_pref2 := prefs2.language.getD "Any"
  let languages1 ← loadLangs user1.languages
  let languages2 ← loadLangs user2.languages
  let gender1 := user1.gender
  let gender2 := user2.gender
  if gender_pref1 ≠ "Any" ∧ gender2 ≠ some gender_pref1 then return false
  if lang_pref1 ≠ "Any" ∧ (languages2 = [] ∨ lang_pref1 ∉ languages2) then return false
  if gender_pref2 ≠ "Any" ∧ gender1 ≠ some gender_pref2 then return false
  if lang_pref2 ≠ "Any" ∧ (languages1 = [] ∨ lang_pref2 ∉ languages1) then return false
  return true

/-- `check_mutual_match` (src/main.py:656-690): the `except` arm turns
any exception into `False`. -/
def check_mutual_match (user1 user2 : UserRow) : Bool :=
  (check_mutual_match_run user1 user2).getD false

/-! ### Spec-side restatement of the matcher (§4.1 of the spec)

These definitions follow the wording of the spec, to be compared with
`check_mutual_match`, which is translated from the source. -/

/-- A client "declares" an intent when the stored intent is a non-empty
string. -/
def declaredIntent (u : UserRow) : Option String :=
  truthyStr u.intent

/-- Spec rule 1: both declare a non-open intent and the intents differ. -/
def intentsClash (a b : UserRow) : Prop :=
  ∃ ia ib, declaredIntent a = some ia ∧ declaredIntent b = some ib ∧
    ia ≠ anythingGoes ∧ ib ≠ anythingGoes ∧ ia ≠ ib

/-- Spec rule 2, gender half: the filter is `"Any"` or equals the
candidate's gender. -/
def genderFilterAccepts (f : String) (g : Option String) : Prop :=
  f = "Any" ∨ g = some f

/-- Spec rule 2, language half: the filter is `"Any"` or names a language
in the candidate's spoken-language set. -/
def languageFilterAccepts (f : String) (spoken : List String) : Prop :=
  f = "Any" ∨ f ∈ spoken

/-- The compatibility contract as stated by the spec: rule 1, rule 2 in
both directions, and rule 3 (any parse failure is a non-match). -/
def is_mutual_match (a b : UserRow) : Prop :=
  ¬ intentsClash a b ∧
  match loadPrefs a.search_prefs, loadPrefs b.search_prefs,
        loadLangs a.languages, loadLangs b.languages with
  | some pa, some pb, some la, some lb =>
      genderFilterAccepts (pa.gender.getD "Any") b.gender ∧
      languageFilterAccepts (pa.language.getD "Any") lb ∧
      genderFilterAccepts (pb.gender.getD "Any") a.gender ∧
      languageFilterAccepts (pb.language.getD "Any") la
  | _, _, _, _ => False

/-! ### The persistent store

One record type per SQL table of `initialize_db` (src/main.py:94-158),
plus a `Store` bundling them.  `records` is the `users LEFT JOIN
sessions` view that `get_user_data` returns (both tables are keyed by
`user_id` and every writer creates both rows together, so the join is a
single map here). -/

/-- A row of `chat_history` (the ChatSession record). -/
structure ChatRow where
  user1_id : Nat
  user2_id : Nat
  start_time : Nat := 0
  end_time : Option Nat := none
  user1_wants_favorite : Nat := 0
  user2_wants_favorite : Nat := 0
  user1_vibe_tag : Option String := none
  user2_vibe_tag : Option String := none
deriving DecidableEq, Repr

/-- The profile snapshot JSON stored inside a connection row
(`create_connection`, src/main.py:1312-1321). -/
structure Snapshot where
  name : Option String
  gender : Option String
  age : Option Nat
  languages : Stored (List String)
  intent : Option String
  kinks : Stored (List String)
deriving DecidableEq, Repr

/-- A row of `connections`; the table carries `UNIQUE(user1_id, user2_id)`,
an ordered-pair constraint. -/
structure ConnectionRow where
  user1_id : Nat
  user2_id : Nat
  user1_snapshot : Snapshot
  user2_snapshot : Snapshot
  timestamp : Nat
deriving DecidableEq, Repr

/-- A row of `message_map`; primary key `(forwarded_user_id, forwarded_msg_id)`. -/
structure MapEntry where
  chat_id : Nat
  original_user_id : Nat
  original_msg_id : Nat
  forwarded_user_id : Nat
  forwarded_msg_id : Nat
deriving DecidableEq, Repr

/-- A row of `invites`, keyed by the invite token. -/
structure InviteRow where
  host_user_id : Nat
  creation_time : Nat
deriving DecidableEq, Repr

/-- The whole persistent store. -/
structure Store where
  records : Nat → Option UserRow
  chat_history : List (Nat × ChatRow) := []
  next_chat_id : Nat := 1
  connections : List ConnectionRow := []
  message_map : List MapEntry := []
  invites : List (String × InviteRow) := []

/-- Write one joined record. -/
def setRecord (uid : Nat) (r : UserRow) (st : Store) : Store :=
  { st with records := fun v => if v = uid then some r else st.records v }

/-- The `INSERT ... ON CONFLICT DO NOTHING` pair at the head of
`update_user_data` (src/main.py:185-186): a missing user gets a default
row named "Stranger" before the UPDATE applies. -/
def ensureRow (uid : Nat) (st : Store) : UserRow :=
  (st.records uid).getD { user_id := uid, name := some "Stranger" }

/-- `update_user_data(user_id, data)` (src/main.py:175-199): create the
row if absent, then apply the column assignments `patch`. -/
def update_user_data (uid : Nat) (patch : UserRow → UserRow) (st : Store) : Store :=
  setRecord uid (patch (ensureRow uid st)) st

/-- `delete_user_profile` (src/main.py:201-208): a single UPDATE on
`users` blanking the seven profile columns; no row is deleted. -/
def delete_user_profile (uid : Nat) (st : Store) : Store :=
  match st.records uid with
  | none => st
  | some r =>
      setRecord uid
        { r with name := some "Anonymous", gender := none, age := none,
                 languages := .missing, interests := none, intent := none,
                 kinks := .missing } st

/-! ### Message relay map (src/main.py:216-237, 1211-1220) -/

/-- `map_message` (src/main.py:216-223): insert one mapping row,
`ON CONFLICT (forwarded_user_id, forwarded_msg_id) DO NOTHING`. -/
def map_message (chat_id original_user_id original_msg_id forwarded_user_id forwarded_msg_id : Nat)
    (m : List MapEntry) : List MapEntry :=
  if m.any fun e =>
      e.forwarded_user_id == forwarded_user_id && e.forwarded_msg_id == forwarded_msg_id
  then m
  else m ++ [⟨chat_id, original_user_id, original_msg_id, forwarded_user_id, forwarded_msg_id⟩]

/-- `get_mapped_message_id` (src/main.py:225-232): look a reply up by
chat id, replier id and replied-to message id. -/
def get_mapped_message_id (chat_id user_id_replying replied_to_msg_id : Nat)
    (m : List MapEntry) : Option Nat :=
  (m.find? fun e =>
      e.chat_id == chat_id && e.forwarded_user_id == user_id_replying &&
        e.forwarded_msg_id == replied_to_msg_id).map
    fun e => e.original_msg_id

/-- The two `map_message` calls `message_handler` issues for every relayed
message (src/main.py:1219-1220): sender→forwarded, then forwarded→sender. -/
def relay_message (chat_id sender partner orig_id fwd_id : Nat)
    (m : List MapEntry) : List MapEntry :=
  map_message chat_id partner fwd_id sender orig_id
    (map_message chat_id sender orig_id partner fwd_id m)

/-- `clear_chat_maps` (src/main.py:234-237); `if not chat_id: return`
makes both a NULL and a zero chat id a no-op. -/
def clear_chat_maps (cid : Option Nat) (st : Store) : Store :=
  match cid with
  | none => st
  | some c =>
      if c = 0 then st
      else { st with message_map := st.message_map.filter fun e => e.chat_id != c }

/-! ### match_users (src/main.py:852-893) -/

/-- The session columns `match_users` assigns to each participant. -/
def in_chat_patch (partner cid t : Nat) (r : UserRow) : UserRow :=
  { r with state := "in_chat", partner_id := some partner,
           last_chat_id := some cid, chat_start_time := some t,
           searching_message_id := none }

/-- The `INSERT INTO chat_history ... RETURNING chat_id` of `match_users`. -/
def insert_chat (u1 u2 t : Nat) (st : Store) : Store :=
  { st with
    chat_history :=
      st.chat_history ++ [(st.next_chat_id, { user1_id := u1, user2_id := u2, start_time := t })],
    next_chat_id := st.next_chat_id + 1 }

/-- The store states a concurrently scheduled task can observe while one
`match_users(user1_id, user2_id)` call runs.  The chat-history INSERT
executes on connection `conn` inside `conn.transaction()` and becomes
visible only when that transaction commits, but the two
`update_user_data` calls acquire their *own* pool connections
(src/main.py:872-874) and autocommit immediately, each at its own await
point.  The visible sequence is therefore: initial state; user1's
session updated; both sessions updated; transaction committed (chat row
visible, its id `next_chat_id` having been allocated by the sequence at
INSERT time). -/
def match_users_states (user1_id user2_id t : Nat) (st : Store) : List Store :=
  let cid := st.next_chat_id
  let s1 := update_user_data user1_id (in_chat_patch user2_id cid t) st
  let s2 := update_user_data user2_id (in_chat_patch user1_id cid t) s1
  let s3 := insert_chat user1_id user2_id t s2
  [st, s1, s2, s3]

/-- The store state after `match_users` completes all its writes. -/
def match_users (user1_id user2_id t : Nat) (st : Store) : Store :=
  insert_chat user1_id user2_id t
    (update_user_data user2_id (in_chat_patch user1_id st.next_chat_id t)
      (update_user_data user1_id (in_chat_patch user2_id st.next_chat_id t) st))

/-! ### end_chat (src/main.py:1000-1050) -/

/-- Update the chat row with a given id (`UPDATE chat_history ... WHERE
chat_id = $2`). -/
def updateChatRow (cid : Nat) (f : ChatRow → ChatRow) (ch : List (Nat × ChatRow)) :
    List (Nat × ChatRow) :=
  ch.map fun e => if e.1 == cid then (e.1, f e.2) else e

/-- Look a chat row up by id. -/
def lookupChatRow (cid : Nat) (ch : List (Nat × ChatRow)) : Option ChatRow :=
  (ch.find? fun e => e.1 == cid).map Prod.snd

/-- The session columns `end_chat` resets for both sides. -/
def reset_session_patch (r : UserRow) : UserRow :=
  { r with state := "idle", partner_id := none, pinned_message_id := none,
           last_chat_id := none, chat_start_time := none }

/-- `if last_chat_id:` guard of `end_chat` (src/main.py:1014-1020): a
truthy chat id gets its `end_time` stamped; NULL or zero is skipped. -/
def stamp_end_time (now : Nat) (cid : Option Nat) (st : Store) : Store :=
  match cid with
  | some c =>
      if c = 0 then st
      else { st with chat_history :=
               updateChatRow c (fun r => { r with end_time := some now }) st.chat_history }
  | none => st

/-- The partner-side session reset of `end_chat` (src/main.py:1035-1036),
applied only when a partner is recorded. -/
def reset_partner (p : Option Nat) (st : Store) : Store :=
  match p with
  | some q => update_user_data q reset_session_patch st
  | none => st

/-- `end_chat(user_id)` (src/main.py:1000-1050).  Returns `none` when the
source would raise (`time.time() - chat_start_time` with a NULL start
time); otherwise `some` of the `(partner_id, chat_duration, last_chat_id)`
triple the source returns, paired with the resulting store. -/
def end_chat (now : Nat) (user_id : Nat) (st : Store) :
    Option ((Option Nat × Nat × Option Nat) × Store) :=
  match st.records user_id with
  | none => some ((none, 0, none), st)
  | some user_data =>
    if user_data.state ≠ "in_chat" then some ((none, 0, none), st)
    else
      match user_data.chat_start_time with
      | none => none
      | some t0 =>
        let partner_id := user_data.partner_id
        let last_chat_id := user_data.last_chat_id
        let chat_duration := now - t0
        let st1 := stamp_end_time now last_chat_id st
        let st2 := clear_chat_maps last_chat_id st1
        let st3 := update_user_data user_id reset_session_patch st2
        let st4 := reset_partner partner_id st3
        some ((partner_id, chat_duration, last_chat_id), st4)

/-- Both session fields cleared as `end_chat`'s reset dictionary does. -/
def sessionCleared (r : UserRow) : Prop :=
  r.state = "idle" ∧ r.partner_id = none ∧ r.last_chat_id = none ∧
    r.chat_start_time = none ∧ r.pinned_message_id = none

/-! ### Favorites (src/main.py:1229-1276, 1306-1331) -/

/-- The profile snapshot `create_connection` serializes for one side. -/
def mkSnapshot (u : UserRow) : Snapshot :=
  { name := u.name, gender := u.gender, age := u.age,
    languages := u.languages, intent := u.intent, kinks := u.kinks }

/-- `create_connection(user1_id, user2_id)` (src/main.py:1306-1331):
aborts if either profile is missing, then
`INSERT INTO connections ... ON CONFLICT (user1_id, user2_id) DO NOTHING` —
the conflict target is the *ordered* pair. -/
def create_connection (user1_id user2_id : Nat) (now : Nat) (st : Store) : Store :=
  match st.records user1_id, st.records user2_id with
  | some d1, some d2 =>
      if st.connections.any fun c => c.user1_id == user1_id && c.user2_id == user2_id
      then st
      else { st with connections :=
               st.connections ++
                 [{ user1_id := user1_id, user2_id := user2_id,
                    user1_snapshot := mkSnapshot d1, user2_snapshot := mkSnapshot d2,
                    timestamp := now }] }
  | _, _ => st

/-- The column choice of `favorite_callback`: `user1_wants_favorite` when
the initiator is `user1_id`, else `user2_wants_favorite`. -/
def flag_favorite (initiator_id : Nat) (h : ChatRow) : ChatRow :=
  if h.user1_id = initiator_id
  then { h with user1_wants_favorite := 1 }
  else { h with user2_wants_favorite := 1 }

/-- The partner derivation of `favorite_callback`: `user2_id` when the
initiator is `user1_id`, else `user1_id`. -/
def fav_partner_of (initiator_id : Nat) (h : ChatRow) : Nat :=
  if h.user1_id = initiator_id then h.user2_id else h.user1_id

/-- The store writes of `favorite_callback` (src/main.py:1229-1276): set
the initiator's `wants_favorite` column on the chat row, and when both
flags then read 1, synchronously `create_connection(initiator, partner)`.
The non-mutual branches only send messages. -/
def favorite_callback (initiator_id : Nat) (cid : Nat) (now : Nat) (st : Store) : Store :=
  match lookupChatRow cid st.chat_history with
  | none => st
  | some history =>
    let updated := flag_favorite initiator_id history
    let st1 := { st with chat_history := updateChatRow cid (fun _ => updated) st.chat_history }
    if updated.user1_wants_favorite = 1 ∧ updated.user2_wants_favorite = 1 then
      create_connection initiator_id (fav_partner_of initiator_id updated) now st1
    else st1

/-- How many connection rows exist for the unordered pair `{a, b}`. -/
def connectionsFor (a b : Nat) (st : Store) : Nat :=
  st.connections.countP fun c =>
    (c.user1_id == a && c.user2_id == b) || (c.user1_id == b && c.user2_id == a)

/-! ### Invite redemption (src/main.py:256-292) -/

/-- What `handle_invite_join` does after its validity checks; `success`
records the `match_users(host, guest)` invocation. -/
inductive InviteOutcome : Type where
  | invalidToken : InviteOutcome
  | expired : InviteOutcome
  | selfRedeem : InviteOutcome
  | hostUnavailable : InviteOutcome
  | success : Nat → Nat → InviteOutcome
deriving DecidableEq, Repr

/-- Look an invite up by token. -/
def lookupInvite (token : String) (st : Store) : Option InviteRow :=
  (st.invites.find? fun e => e.1 == token).map Prod.snd

/-- `DELETE FROM invites WHERE invite_token = $1`. -/
def deleteInvite (token : String) (st : Store) : Store :=
  { st with invites := st.invites.filter fun e => e.1 != token }

/-- `handle_invite_join` (src/main.py:256-292): reject a missing token
("invalid or already used"); reject and delete a token older than 300
time-units; reject self-redemption (token kept); reject and delete when
the host's session is missing or not `hosting`; otherwise delete the
token and invoke `match_users(host, guest)`. -/
def handle_invite_join (now : Nat) (token : String) (guest : Nat) (st : Store) :
    InviteOutcome × Store :=
  match lookupInvite token st with
  | none => (.invalidToken, st)
  | some inv =>
    if now - inv.creation_time > 300 then (.expired, deleteInvite token st)
    else if inv.host_user_id = guest then (.selfRedeem, st)
    else
      match st.records inv.host_user_id with
      | none => (.hostUnavailable, deleteInvite token st)
      | some h =>
        if h.state ≠ "hosting" then (.hostUnavailable, deleteInvite token st)
        else (.success inv.host_user_id guest, deleteInvite token st)

/-! ### Fallback timer arming (src/main.py:721-750) -/

/-- The fallback-timer decision inside `add_to_pool_and_match`
(src/main.py:739-748).  The prefs are parsed with `json.loads` *outside*
any try/except, so `none` models that exception; otherwise
`some none` means no timer and `some (some (delay, uid))` models
`run_once(unified_fallback_check, 30, name=f"fallback_{user_id}")` —
a fixed 30 time-unit delay under a name keyed by the client id. -/
def add_to_pool_fallback_timer (u : UserRow) : Option (Option (Nat × Nat)) := do
  let prefs ← loadPrefs u.search_prefs
  let hasPremiumPrefs : Bool :=
    u.is_premium == 1 &&
      (prefs.gender.getD "Any" != "Any" || prefs.language.getD "Any" != "Any")
  let hasSpecificIntent : Bool :=
    match truthyStr u.intent with
    | some i => i != anythingGoes
    | none => false
  if hasPremiumPrefs || hasSpecificIntent then return some (30, u.user_id)
  else return none

/-- Spec-side (claim C8) predicate: non-default search preferences. -/
def nonDefaultPrefs (u : UserRow) : Prop :=
  ∃ p, loadPrefs u.search_prefs = some p ∧
    (p.gender.getD "Any" ≠ "Any" ∨ p.language.getD "Any" ≠ "Any")

/-- Spec-side (claim C8) predicate: a declared intent other than
"Anything Goes". -/
def nonDefaultIntent (u : UserRow) : Prop :=
  ∃ i, declaredIntent u = some i ∧ i ≠ anythingGoes

/-! ### run_matching_algorithm (src/main.py:970-985)

The while loop pops the first entrant of the snapshot as searcher,
filters the remaining entrants through `check_mutual_match`, and — when
candidates exist — pairs the searcher with `random.choice` of them,
removing both from the working list.  `random.choice` is determinized by
an oracle of indices (one per successful pairing, taken modulo the
candidate count, so every uniform choice is some oracle).  The fuel
argument bounds the loop's iterations; every iteration removes at least
one entrant, so `pool.length` fuel is exact. -/

def run_matching_loop : Nat → List UserRow → List Nat → List (Nat × Nat)
  | 0, _, _ => []
  | _ + 1, [], _ => []
  | _ + 1, [_], _ => []
  | fuel + 1, searcher :: rest, oracle =>
    match rest.filter (fun p => check_mutual_match searcher p) with
    | [] => run_matching_loop fuel rest oracle
    | e :: es =>
      let chosen := (e :: es).getD (oracle.headD 0 % (e :: es).length) e
      (searcher.user_id, chosen.user_id) ::
        run_matching_loop fuel (rest.erase chosen) oracle.tail

/-- One matching pass over the waiting-pool snapshot, yielding the
`(searcher, chosen_partner)` id pairs handed to `match_users`. -/
def run_matching_algorithm (pool : List UserRow) (oracle : List Nat) : List (Nat × Nat) :=
  run_matching_loop pool.length pool oracle

/-- All participant ids of the newly created sessions, in order. -/
def pairMembers (ps : List (Nat × Nat)) : List Nat :=
  ps.flatMap fun p => [p.1, p.2]

/-! ### Concrete inputs used by counterexamples and witnesses -/

/-- A minimal joined record in the waiting state. -/
def waitingUser (uid : Nat) : UserRow :=
  { user_id := uid, name := some "Stranger", intent := some anythingGoes,
    state := "waiting" }

/-- Two waiting users, ids 1 and 2, empty tables. -/
def twoUserStore : Store :=
  { records := fun v => if v = 1 then some (waitingUser 1)
               else if v = 2 then some (waitingUser 2) else none }

/-- A store whose users 10 and 20 share chat 1, both favorite flags clear. -/
def favStore : Store :=
  { records := fun v => if v = 10 then some (waitingUser 10)
               else if v = 20 then some (waitingUser 20) else none,
    chat_history := [(1, { user1_id := 10, user2_id := 20 })] }

/-- The favorites store after the click sequence: 10 flags, 20 flags
(mutual — `create_connection(20, 10)` runs), then a duplicate attempt by
10 (both flags read 1 — `create_connection(10, 20)` runs). -/
def favStoreAfterClicks : Store :=
  favorite_callback 10 1 0 (favorite_callback 20 1 0 (favorite_callback 10 1 0 favStore))

/-- A non-premium client whose stored search preferences name a gender
filter while the intent is the default "Anything Goes". -/
def nonPremiumFiltered : UserRow :=
  { user_id := 7, is_premium := 0, intent := some anythingGoes,
    search_prefs := .ok { gender := some "Male" } }

/-- A premium client with the same non-default gender filter. -/
def premiumFiltered : UserRow :=
  { user_id := 9, is_premium := 1, intent := some anythingGoes,
    search_prefs := .ok { gender := some "Male" } }

/-- Users 1 and 2 in chat 5 (started at time 50) with one relayed
message on record. -/
def chatStore : Store :=
  { records := fun v =>
      if v = 1 then
        some { waitingUser 1 with
                 state := "in_chat"
                 partner_id := some 2
                 last_chat_id := some 5
                 chat_start_time := some 50
                 pinned_message_id := some 9 }
      else if v = 2 then
        some { waitingUser 2 with
                 state := "in_chat"
                 partner_id := some 1
                 last_chat_id := some 5
                 chat_start_time := some 50 }
      else none,
    chat_history := [(5, { user1_id := 1, user2_id := 2, start_time := 50 })],
    message_map := [⟨5, 1, 100, 2, 200⟩] }

lemma intentsIncompatible_iff (a b : UserRow) :
    intentsIncompatible a.intent b.intent = true ↔ intentsClash a b := by
  unfold intentsIncompatible intentsClash declaredIntent
  cases h1 : truthyStr a.intent <;> cases h2 : truthyStr b.intent <;>
    simp_all

lemma emptyOr_not_mem (x : String) (l : List String) :
    (l = [] ∨ x ∉ l) ↔ x ∉ l := by
  constructor
  · rintro (rfl | h)
    · simp
    · exact h
  · exact Or.inr

lemma check_eq_spec (a b : UserRow) :
    check_mutual_match a b = true ↔ is_mutual_match a b := by
  unfold check_mutual_match check_mutual_match_run is_mutual_match
  rw [← intentsIncompatible_iff]
  cases hp1 : loadPrefs a.search_prefs with
  | none =>
    cases hI : intentsIncompatible a.intent b.intent <;>
      simp [Option.getD, hI, Option.bind]
  | some p1 =>
    cases hp2 : loadPrefs b.search_prefs with
    | none =>
      cases hI : intentsIncompatible a.intent b.intent <;>
        simp [Option.getD, hI, Option.bind]
    | some p2 =>
      cases hl1 : loadLangs a.languages with
      | none =>
        cases hI : intentsIncompatible a.intent b.intent <;>
          simp [Option.getD, hI, Option.bind]
      | some l1 =>
        cases hl2 : loadLangs b.languages with
        | none =>
          cases hI : intentsIncompatible a.intent b.intent <;>
            simp [Option.getD, hI, Option.bind]
        | some l2 =>
          cases hI : intentsIncompatible a.intent b.intent with
          | true => simp [hI]
          | false =>
            simp only [hI, Bool.false_eq_true, if_false, bind, Option.bind,
              emptyOr_not_mem]
            unfold genderFilterAccepts languageFilterAccepts
            split_ifs with h1 h2 h3 h4 <;> simp <;> tauto

lemma is_mutual_match_symm_imp (a b : UserRow) :
    is_mutual_match a b → is_mutual_match b a := by
  intro h
  refine ⟨fun hc => h.1 ?_, ?_⟩
  · obtain ⟨ia, ib, h1, h2, h3, h4, h5⟩ := hc
    exact ⟨ib, ia, h2, h1, h4, h3, fun e => h5 e.symm⟩
  · have h2 := h.2
    clear h
    revert h2
    cases loadPrefs a.search_prefs <;> cases loadPrefs b.search_prefs <;>
      cases loadLangs a.languages <;> cases loadLangs b.languages <;>
      simp <;> tauto

lemma check_symm (a b : UserRow) :
    check_mutual_match a b = check_mutual_match b a := by
  have ha := check_eq_spec a b
  have hb := check_eq_spec b a
  cases hcb : check_mutual_match b a with
  | true => exact ha.2 (is_mutual_match_symm_imp b a (hb.1 hcb))
  | false =>
    cases hca : check_mutual_match a b with
    | false => rfl
    | true =>
      exact absurd (hb.2 (is_mutual_match_symm_imp a b (ha.1 hca)))
        (by simp [hcb])

/-- C1: `check_mutual_match(a, b)` returns true iff (1) it is not the
case that both declare a non-"Anything Goes" intent and the intents
differ, (2) each side's gender filter (default "Any") is "Any" or equals
the other's gender and each side's language filter is "Any" or is spoken
by the other, and (3) malformed stored preference or language data fails
closed to a non-match instead of raising. -/
theorem c1_mutual_match_correct (a b : UserRow) :
    check_mutual_match a b = true ↔ is_mutual_match a b :=
  check_eq_spec a b

/-- C2: the compatibility check is symmetric in its two arguments. -/
theorem c2_mutual_match_symmetric (a b : UserRow) :
    check_mutual_match a b = check_mutual_match b a :=
  check_symm a b

/-- C3 (code bug): `match_users` is not atomic.  Its two session updates
run through `update_user_data` on separate autocommitting pool
connections outside the `conn.transaction()` block that the function
opens to "ensure all database actions succeed or fail together", so the
state after user 1's update and before user 2's is visible to concurrent
tasks: user 1 is `in_chat` with partner 2 while user 2 is still
`waiting`. -/
theorem c3_match_users_not_atomic :
    ∃ s ∈ match_users_states 1 2 100 twoUserStore,
      (s.records 1).map UserRow.state = some "in_chat" ∧
      ((s.records 1).bind UserRow.partner_id = some 2) ∧
      (s.records 2).map UserRow.state = some "waiting" := by
  refine ⟨update_user_data 1 (in_chat_patch 2 twoUserStore.next_chat_id 100) twoUserStore,
    ?_, ?_, ?_, ?_⟩
  · unfold match_users_states
    simp only [List.mem_cons]
    tauto
  · rfl
  · rfl
  · rfl

/-- C10: `delete_user_profile` blanks only the seven profile columns
(name becomes "Anonymous", gender/age/languages/interests/intent/kinks
become NULL); the premium flag, the presence-visibility flag, every
session column, the connections table — and every other table — are
untouched, and the user row itself is never deleted. -/
theorem c10_profile_reset_frame (st : Store) (uid : Nat) :
    (delete_user_profile uid st).chat_history = st.chat_history ∧
    (delete_user_profile uid st).connections = st.connections ∧
    (delete_user_profile uid st).invites = st.invites ∧
    (delete_user_profile uid st).message_map = st.message_map ∧
    (∀ v, v ≠ uid → (delete_user_profile uid st).records v = st.records v) ∧
    (st.records uid = none → (delete_user_profile uid st).records uid = none) ∧
    (∀ r, st.records uid = some r →
      ∃ r', (delete_user_profile uid st).records uid = some r' ∧
        r'.is_premium = r.is_premium ∧ r'.show_active_status = r.show_active_status ∧
        r'.state = r.state ∧ r'.partner_id = r.partner_id ∧
        r'.last_chat_id = r.last_chat_id ∧ r'.chat_start_time = r.chat_start_time ∧
        r'.searching_message_id = r.searching_message_id ∧
        r'.pinned_message_id = r.pinned_message_id ∧
        r'.search_prefs = r.search_prefs ∧
        r'.original_search_prefs = r.original_search_prefs ∧
        r'.name = some "Anonymous" ∧ r'.gender = none ∧ r'.age = none ∧
        r'.languages = .missing ∧ r'.interests = none ∧ r'.intent = none ∧
        r'.kinks = .missing) := by
  unfold delete_user_profile setRecord
  cases h : st.records uid with
  | none =>
    refine ⟨rfl, rfl, rfl, rfl, fun v hv => rfl, fun _ => h, fun r hr => ?_⟩
    exact absurd hr (by simp)
  | some r0 =>
    refine ⟨rfl, rfl, rfl, rfl, fun v hv => by simp [hv], fun hn => ?_, fun r hr => ?_⟩
    · exact absurd hn (by simp)
    · obtain rfl : r0 = r := by injection hr
      refine ⟨{ r0 with name := some "Anonymous", gender := none, age := none,
                        languages := .missing, interests := none, intent := none,
                        kinks := .missing }, by simp, ?_⟩
      exact ⟨rfl, rfl, rfl, rfl, rfl, rfl, rfl, rfl, rfl, rfl, rfl, rfl, rfl,
        rfl, rfl, rfl, rfl⟩

/-- Witness for C10 at a concrete store and user. -/
theorem c10_profile_reset_frame_witness :
    (delete_user_profile 1 twoUserStore).connections = twoUserStore.connections ∧
    (delete_user_profile 1 twoUserStore).records 2 = twoUserStore.records 2 ∧
    ∃ r', (delete_user_profile 1 twoUserStore).records 1 = some r' ∧
      r'.is_premium = (waitingUser 1).is_premium := by
  obtain ⟨h1, h2, h3, h4, h5, h6, h7⟩ := c10_profile_reset_frame twoUserStore 1
  obtain ⟨r', hr', hp, hrest⟩ := h7 (waitingUser 1) rfl
  exact ⟨h2, h5 2 (by decide), r', hr', hp⟩

lemma find_filter_self (l : List (String × InviteRow)) (t : String) :
    (l.filter fun e => e.1 != t).find? (fun e => e.1 == t) = none := by
  rw [List.find?_eq_none]
  intro x hx
  rw [List.mem_filter] at hx
  have hne : x.1 ≠ t := by
    have := hx.2
    simpa using this
  simp [hne]

lemma lookupInvite_delete (token : String) (st : Store) :
    lookupInvite token (deleteInvite token st) = none := by
  show ((st.invites.filter fun e => e.1 != token).find?
      (fun e => e.1 == token)).map Prod.snd = none
  rw [find_filter_self]
  rfl

/-- C9: invite redemption succeeds exactly when the token exists, at most
300 time-units have elapsed since its creation, the redeemer is not the
host, and the host's session still reads `hosting`; every failure returns
only a notice outcome (no `match_users` invocation), and on success the
token is deleted, so redeeming it a second time fails with
"invalid or already used". -/
theorem c9_invite_redemption (now now2 : Nat) (token : String) (guest g2 : Nat) (st : Store) :
    (∀ h g, (handle_invite_join now token guest st).1 = .success h g ↔
        ∃ inv, lookupInvite token st = some inv ∧ now - inv.creation_time ≤ 300 ∧
          inv.host_user_id ≠ guest ∧
          (∃ hr, st.records inv.host_user_id = some hr ∧ hr.state = "hosting") ∧
          h = inv.host_user_id ∧ g = guest) ∧
    ((∃ h g, (handle_invite_join now token guest st).1 = .success h g) →
      lookupInvite token (handle_invite_join now token guest st).2 = none ∧
      (handle_invite_join now2 token g2 (handle_invite_join now token guest st).2).1 =
        .invalidToken) := by
  have hdel := lookupInvite_delete token st
  have hjnone : lookupInvite token st = none →
      handle_invite_join now token guest st = (.invalidToken, st) := by
    intro hl
    unfold handle_invite_join
    rw [hl]
  have hdel2 : (handle_invite_join now2 token g2 (deleteInvite token st)).1 =
      .invalidToken := by
    unfold handle_invite_join
    rw [hdel]
  cases hl : lookupInvite token st with
  | none =>
    rw [hjnone hl]
    refine ⟨fun h g => ?_, fun hex => ?_⟩
    · constructor
      · intro habs
        exact absurd habs (by simp)
      · rintro ⟨inv, hinv, _⟩
        exact absurd hinv (by simp)
    · obtain ⟨h, g, hsg⟩ := hex
      exact absurd hsg (by simp)
  | some inv =>
    have heq0 : handle_invite_join now token guest st =
        (if now - inv.creation_time > 300 then (.expired, deleteInvite token st)
         else if inv.host_user_id = guest then (.selfRedeem, st)
         else
           match st.records inv.host_user_id with
           | none => (.hostUnavailable, deleteInvite token st)
           | some h =>
             if h.state ≠ "hosting" then (.hostUnavailable, deleteInvite token st)
             else (.success inv.host_user_id guest, deleteInvite token st)) := by
      unfold handle_invite_join
      rw [hl]
    by_cases hexp : now - inv.creation_time > 300
    · have heq : handle_invite_join now token guest st = (.expired, deleteInvite token st) := by
        rw [heq0, if_pos hexp]
      rw [heq]
      refine ⟨fun h g => ?_, fun hex => ?_⟩
      · constructor
        · intro habs
          exact absurd habs (by simp)
        · rintro ⟨inv', hinv', hle, _⟩
          obtain rfl : inv = inv' := by injection hinv'
          omega
      · obtain ⟨h, g, hsg⟩ := hex
        exact absurd hsg (by simp)
    · by_cases hself : inv.host_user_id = guest
      · have heq : handle_invite_join now token guest st = (.selfRedeem, st) := by
          rw [heq0, if_neg hexp, if_pos hself]
        rw [heq]
        refine ⟨fun h g => ?_, fun hex => ?_⟩
        · constructor
          · intro habs
            exact absurd habs (by simp)
          · rintro ⟨inv', hinv', _, hne, _⟩
            obtain rfl : inv = inv' := by injection hinv'
            exact absurd hself hne
        · obtain ⟨h, g, hsg⟩ := hex
          exact absurd hsg (by simp)
      · cases hh : st.records inv.host_user_id with
        | none =>
          have heq : handle_invite_join now token guest st =
              (.hostUnavailable, deleteInvite token st) := by
            rw [heq0, if_neg hexp, if_neg hself, hh]
          rw [heq]
          refine ⟨fun h g => ?_, fun hex => ?_⟩
          · constructor
            · intro habs
              exact absurd habs (by simp)
            · rintro ⟨inv', hinv', _, _, ⟨hr, hhr, _⟩, _⟩
              obtain rfl : inv = inv' := by injection hinv'
              rw [hh] at hhr
              exact absurd hhr (by simp)
          · obtain ⟨h, g, hsg⟩ := hex
            exact absurd hsg (by simp)
        | some hostRow =>
          by_cases hst : hostRow.state ≠ "hosting"
          · have heq : handle_invite_join now token guest st =
                (.hostUnavailable, deleteInvite token st) := by
              rw [heq0, if_neg hexp, if_neg hself, hh]
              exact if_pos hst
            rw [heq]
            refine ⟨fun h g => ?_, fun hex => ?_⟩
            · constructor
              · intro habs
                exact absurd habs (by simp)
              · rintro ⟨inv', hinv', _, _, ⟨hr, hhr, hrs⟩, _⟩
                obtain rfl : inv = inv' := by injection hinv'
                rw [hh] at hhr
                obtain rfl : hostRow = hr := by injection hhr
                exact absurd hrs hst
            · obtain ⟨h, g, hsg⟩ := hex
              exact absurd hsg (by simp)
          · have heq : handle_invite_join now token guest st =
                (.success inv.host_user_id guest, deleteInvite token st) := by
              rw [heq0, if_neg hexp, if_neg hself, hh]
              exact if_neg hst
            rw [not_not] at hst
            rw [heq]
            refine ⟨fun h g => ?_, fun hex => ?_⟩
            · constructor
              · intro hsucc
                have h1 : inv.host_user_id = h ∧ guest = g := by
                  injection hsucc with e1 e2
                  exact ⟨e1, e2⟩
                exact ⟨inv, rfl, by omega, hself, ⟨hostRow, hh, hst⟩, h1.1.symm, h1.2.symm⟩
              · rintro ⟨inv', hinv', _, _, _, rfl, rfl⟩
                obtain rfl : inv = inv' := by injection hinv'
                rfl
            · exact ⟨hdel, hdel2⟩

/-- Witness for C9: a fresh token redeemed in time by a non-host guest
whose host is still hosting succeeds, and a second redemption of the
same token fails as already used. -/
theorem c9_invite_redemption_witness :
    (handle_invite_join 100 "tok" 2
        { records := fun v => if v = 1 then some { waitingUser 1 with state := "hosting" } else none,
          invites := [("tok", { host_user_id := 1, creation_time := 50 })] }).1 =
      .success 1 2 ∧
    (handle_invite_join 100 "tok" 2
        ((handle_invite_join 100 "tok" 2
          { records := fun v => if v = 1 then some { waitingUser 1 with state := "hosting" } else none,
            invites := [("tok", { host_user_id := 1, creation_time := 50 })] }).2)).1 =
      .invalidToken := by
  obtain ⟨hiff, hdel⟩ := c9_invite_redemption 100 100 "tok" 2 2
    { records := fun v => if v = 1 then some { waitingUser 1 with state := "hosting" } else none,
      invites := [("tok", { host_user_id := 1, creation_time := 50 })] }
  have hsucc := (hiff 1 2).2
    ⟨{ host_user_id := 1, creation_time := 50 }, by decide, by decide, by decide,
      ⟨{ waitingUser 1 with state := "hosting" }, rfl, rfl⟩, rfl, rfl⟩
  exact ⟨hsucc, (hdel ⟨1, 2, hsucc⟩).2⟩

lemma find?_none_of_not {p : MapEntry → Bool} {m : List MapEntry}
    (h : ∀ e ∈ m, p e = false) : m.find? p = none := by
  rw [List.find?_eq_none]
  intro x hx
  simp [h x hx]

/-- C7: relaying a message records both map directions, and a reply by
either participant to either copy of the message resolves — by chat id,
replier id and replied-to id — to the counterpart message id on the
other side. -/
theorem c7_relay_round_trip (chat sender partner orig fwd : Nat) (m : List MapEntry)
    (hsp : sender ≠ partner)
    (h1 : ∀ e ∈ m, ¬(e.forwarded_user_id = partner ∧ e.forwarded_msg_id = fwd))
    (h2 : ∀ e ∈ m, ¬(e.forwarded_user_id = sender ∧ e.forwarded_msg_id = orig)) :
    get_mapped_message_id chat partner fwd (relay_message chat sender partner orig fwd m) =
      some orig ∧
    get_mapped_message_id chat sender orig (relay_message chat sender partner orig fwd m) =
      some fwd := by
  have hany1 : (m.any fun e =>
      e.forwarded_user_id == partner && e.forwarded_msg_id == fwd) = false := by
    rw [List.any_eq_false]
    intro e he
    have := h1 e he
    simp only [Bool.and_eq_true, beq_iff_eq]
    tauto
  have hm1 : map_message chat sender orig partner fwd m =
      m ++ [⟨chat, sender, orig, partner, fwd⟩] := by
    unfold map_message
    rw [hany1]
    rfl
  have hany2 : ((m ++ [(⟨chat, sender, orig, partner, fwd⟩ : MapEntry)]).any fun e =>
      e.forwarded_user_id == sender && e.forwarded_msg_id == orig) = false := by
    rw [List.any_eq_false]
    intro e he
    rw [List.mem_append] at he
    rcases he with he | he
    · have := h2 e he
      simp only [Bool.and_eq_true, beq_iff_eq]
      tauto
    · simp only [List.mem_singleton] at he
      subst he
      simp only [Bool.and_eq_true, beq_iff_eq]
      intro hc
      exact hsp (hc.1.symm)
  have hm2 : relay_message chat sender partner orig fwd m
      = m ++ [⟨chat, sender, orig, partner, fwd⟩] ++ [⟨chat, partner, fwd, sender, orig⟩] := by
    unfold relay_message
    rw [hm1]
    unfold map_message
    rw [hany2]
    rfl
  rw [hm2]
  constructor
  · unfold get_mapped_message_id
    rw [List.find?_append, List.find?_append]
    have hmnone : m.find? (fun e =>
        e.chat_id == chat && e.forwarded_user_id == partner && e.forwarded_msg_id == fwd) =
        none := by
      apply find?_none_of_not
      intro e he
      by_contra hc
      rw [Bool.not_eq_false] at hc
      simp only [Bool.and_eq_true, beq_iff_eq] at hc
      exact h1 e he ⟨hc.1.2, hc.2⟩
    rw [hmnone]
    simp
  · unfold get_mapped_message_id
    rw [List.find?_append, List.find?_append]
    have hmnone : m.find? (fun e =>
        e.chat_id == chat && e.forwarded_user_id == sender && e.forwarded_msg_id == orig) =
        none := by
      apply find?_none_of_not
      intro e he
      by_contra hc
      rw [Bool.not_eq_false] at hc
      simp only [Bool.and_eq_true, beq_iff_eq] at hc
      exact h2 e he ⟨hc.1.2, hc.2⟩
    rw [hmnone]
    have hps : (partner == sender) = false := by
      rw [beq_eq_false_iff_ne]
      exact Ne.symm hsp
    simp [hps]

/-- Witness for C7: one relayed message in an empty map; a reply to the
forwarded copy resolves to the original id and vice versa. -/
theorem c7_relay_round_trip_witness :
    get_mapped_message_id 5 2 77 (relay_message 5 1 2 33 77 []) = some 33 ∧
    get_mapped_message_id 5 1 33 (relay_message 5 1 2 33 77 []) = some 77 :=
  c7_relay_round_trip 5 1 2 33 77 [] (by decide) (by simp) (by simp)

/-- C8 counterexample: a non-premium client with a stored gender filter
and the default intent has non-default search preferences, so the claim
says a fallback timer must be armed; the code arms the
preferences-based timer only for premium clients
(`has_premium_prefs = await is_premium(user_id) and ...`), so no timer
is armed. -/
theorem c8_counterexample :
    (nonDefaultPrefs nonPremiumFiltered ∨ nonDefaultIntent nonPremiumFiltered) ∧
    add_to_pool_fallback_timer nonPremiumFiltered = some none := by
  constructor
  · left
    exact ⟨{ gender := some "Male" }, rfl, Or.inl (by decide)⟩
  · rfl

lemma fallback_bool_iff (u : UserRow) (p : SearchPrefs) :
    ((u.is_premium == 1 &&
        (p.gender.getD "Any" != "Any" || p.language.getD "Any" != "Any")) ||
      (match truthyStr u.intent with
       | some i => i != anythingGoes
       | none => false)) = true ↔
    ((u.is_premium = 1 ∧ (p.gender.getD "Any" ≠ "Any" ∨ p.language.getD "Any" ≠ "Any")) ∨
      nonDefaultIntent u) := by
  rw [Bool.or_eq_true, Bool.and_eq_true, Bool.or_eq_true]
  unfold nonDefaultIntent declaredIntent
  cases ht : truthyStr u.intent with
  | none => simp
  | some i => simp

/-- C8 (amended): entering the pool arms the unified fallback timer
(fixed 30 time-unit delay, named per client id) if and only if the
client is premium with a non-default gender or language filter, or has a
declared intent other than "Anything Goes"; with default criteria (or
non-premium despite filters and a default intent) no timer is armed. -/
theorem c8_amended_fallback (u : UserRow) (p : SearchPrefs)
    (hp : loadPrefs u.search_prefs = some p) :
    (add_to_pool_fallback_timer u = some (some (30, u.user_id)) ↔
      ((u.is_premium = 1 ∧ (p.gender.getD "Any" ≠ "Any" ∨ p.language.getD "Any" ≠ "Any")) ∨
        nonDefaultIntent u)) ∧
    (add_to_pool_fallback_timer u = some none ↔
      ¬((u.is_premium = 1 ∧ (p.gender.getD "Any" ≠ "Any" ∨ p.language.getD "Any" ≠ "Any")) ∨
        nonDefaultIntent u)) := by
  have hb : add_to_pool_fallback_timer u =
      (if (u.is_premium == 1 &&
            (p.gender.getD "Any" != "Any" || p.language.getD "Any" != "Any")) ||
          (match truthyStr u.intent with
           | some i => i != anythingGoes
           | none => false)
       then some (some (30, u.user_id)) else some none) := by
    unfold add_to_pool_fallback_timer
    rw [hp]
    rfl
  rw [hb]
  by_cases hcond : ((u.is_premium == 1 &&
        (p.gender.getD "Any" != "Any" || p.language.getD "Any" != "Any")) ||
      (match truthyStr u.intent with
       | some i => i != anythingGoes
       | none => false)) = true
  · rw [if_pos hcond]
    have hP := (fallback_bool_iff u p).1 hcond
    exact ⟨iff_of_true rfl hP, iff_of_false (by simp) (fun hn => hn hP)⟩
  · rw [if_neg hcond]
    have hP : ¬((u.is_premium = 1 ∧
        (p.gender.getD "Any" ≠ "Any" ∨ p.language.getD "Any" ≠ "Any")) ∨
        nonDefaultIntent u) := fun hp2 => hcond ((fallback_bool_iff u p).2 hp2)
    exact ⟨iff_of_false (by simp) hP, iff_of_true rfl hP⟩

/-- Witness for C8's amended statement: a premium client with a gender
filter gets the 30 time-unit fallback timer named by their id. -/
theorem c8_amended_fallback_witness :
    add_to_pool_fallback_timer premiumFiltered = some (some (30, premiumFiltered.user_id)) :=
  (c8_amended_fallback premiumFiltered { gender := some "Male" } rfl).1.2
    (Or.inl ⟨rfl, Or.inl (by decide)⟩)

lemma lookup_updateChatRow (cid : Nat) (f : ChatRow → ChatRow) (ch : List (Nat × ChatRow)) :
    lookupChatRow cid (updateChatRow cid f ch) = (lookupChatRow cid ch).map f := by
  unfold lookupChatRow updateChatRow
  induction ch with
  | nil => rfl
  | cons e rest ih =>
    simp only [List.map_cons]
    by_cases h : e.1 = cid
    · have hbe : (e.1 == cid) = true := by
        rw [beq_iff_eq]
        exact h
      rw [if_pos hbe]
      simp only [List.find?_cons, hbe]
      rfl
    · have hbf : (e.1 == cid) = false := by
        rw [beq_eq_false_iff_ne]
        exact h
      rw [if_neg (by simp [hbf] : ¬ ((e.1 == cid) = true))]
      simp only [List.find?_cons, hbf]
      exact ih

lemma sessionCleared_reset (r : UserRow) : sessionCleared (reset_session_patch r) :=
  ⟨rfl, rfl, rfl, rfl, rfl⟩

/-- C6: `end_chat` is a no-op returning the null triple unless the client
is `in_chat`; when the client is `in_chat` (with a partner, a nonzero
chat id and a recorded start time) it stamps the chat's end time, purges
that chat's relay-map entries, resets both participants' sessions to
`idle` with partner/chat/start/pin fields cleared, and returns the
partner id and elapsed duration (and the chat id) to the caller. -/
theorem c6_end_chat (now uid : Nat) (st : Store) :
    ((st.records uid = none → end_chat now uid st = some ((none, 0, none), st)) ∧
     (∀ u, st.records uid = some u → u.state ≠ "in_chat" →
        end_chat now uid st = some ((none, 0, none), st))) ∧
    (∀ u p c t0 r, st.records uid = some u → u.state = "in_chat" →
      u.partner_id = some p → u.last_chat_id = some c → c ≠ 0 →
      u.chat_start_time = some t0 →
      lookupChatRow c st.chat_history = some r →
      ∃ st', end_chat now uid st = some ((some p, now - t0, some c), st') ∧
        lookupChatRow c st'.chat_history = some { r with end_time := some now } ∧
        (∀ e ∈ st'.message_map, e.chat_id ≠ c) ∧
        (∃ ru, st'.records uid = some ru ∧ sessionCleared ru) ∧
        (∃ rp, st'.records p = some rp ∧ sessionCleared rp)) := by
  refine ⟨⟨fun hn => ?_, fun u hu hne => ?_⟩, fun u p c t0 r hu hstate hp2 hc hc0 ht0 hr => ?_⟩
  · unfold end_chat
    rw [hn]
  · unfold end_chat
    rw [hu]
    simp only [if_pos hne]
  · have hni : ¬ u.state ≠ "in_chat" := fun hne => hne hstate
    refine ⟨reset_partner (some p) (update_user_data uid reset_session_patch
        (clear_chat_maps (some c) (stamp_end_time now (some c) st))), ?_, ?_, ?_, ?_, ?_⟩
    · unfold end_chat
      rw [hu]
      simp only [hni, if_false, ht0, hp2, hc, ite_false]
    · have hproj : (reset_partner (some p) (update_user_data uid reset_session_patch
          (clear_chat_maps (some c) (stamp_end_time now (some c) st)))).chat_history =
          (clear_chat_maps (some c) (stamp_end_time now (some c) st)).chat_history := rfl
      have hch : (clear_chat_maps (some c) (stamp_end_time now (some c) st)).chat_history =
          updateChatRow c (fun r2 => { r2 with end_time := some now }) st.chat_history := by
        simp [clear_chat_maps, stamp_end_time, hc0]
      rw [hproj, hch, lookup_updateChatRow, hr]
      rfl
    · have hproj : (reset_partner (some p) (update_user_data uid reset_session_patch
          (clear_chat_maps (some c) (stamp_end_time now (some c) st)))).message_map =
          (clear_chat_maps (some c) (stamp_end_time now (some c) st)).message_map := rfl
      have hmm2 : (clear_chat_maps (some c) (stamp_end_time now (some c) st)).message_map =
          (stamp_end_time now (some c) st).message_map.filter (fun e => e.chat_id != c) := by
        simp [clear_chat_maps, hc0]
      rw [hproj, hmm2]
      intro e he
      rw [List.mem_filter] at he
      have hbne := he.2
      rw [bne_iff_ne] at hbne
      exact hbne
    · by_cases hpu : uid = p
      · refine ⟨reset_session_patch (ensureRow p (update_user_data uid reset_session_patch
            (clear_chat_maps (some c) (stamp_end_time now (some c) st)))), ?_,
          sessionCleared_reset _⟩
        show (if uid = p then _ else _) = _
        rw [if_pos hpu]
      · refine ⟨reset_session_patch (ensureRow uid
            (clear_chat_maps (some c) (stamp_end_time now (some c) st))), ?_,
          sessionCleared_reset _⟩
        show (if uid = p then _ else _) = _
        rw [if_neg hpu]
        show (if uid = uid then _ else _) = _
        rw [if_pos rfl]
    · refine ⟨reset_session_patch (ensureRow p (update_user_data uid reset_session_patch
          (clear_chat_maps (some c) (stamp_end_time now (some c) st)))), ?_,
        sessionCleared_reset _⟩
      show (if p = p then _ else _) = _
      rw [if_pos rfl]

/-- Witness for C6 at a concrete store: ending chat 5 between users 1
and 2 at time 80 returns partner 2 and duration 30, stamps the chat row,
purges the map, and resets both sessions. -/
theorem c6_end_chat_witness :
    ∃ st', end_chat 80 1 chatStore = some ((some 2, 30, some 5), st') ∧
      lookupChatRow 5 st'.chat_history =
        some { user1_id := 1, user2_id := 2, start_time := 50, end_time := some 80 } ∧
      (∀ e ∈ st'.message_map, e.chat_id ≠ 5) ∧
      (∃ ru, st'.records 1 = some ru ∧ sessionCleared ru) ∧
      (∃ rp, st'.records 2 = some rp ∧ sessionCleared rp) :=
  (c6_end_chat 80 1 chatStore).2
    { waitingUser 1 with
        state := "in_chat"
        partner_id := some 2
        last_chat_id := some 5
        chat_start_time := some 50
        pinned_message_id := some 9 }
    2 5 50 { user1_id := 1, user2_id := 2, start_time := 50 }
    rfl rfl rfl rfl (by decide) rfl rfl

lemma favorite_callback_some (init cid now : Nat) (st : Store) (h : ChatRow)
    (hh : lookupChatRow cid st.chat_history = some h) :
    favorite_callback init cid now st =
      (if (flag_favorite init h).user1_wants_favorite = 1 ∧
          (flag_favorite init h).user2_wants_favorite = 1 then
        create_connection init (fav_partner_of init (flag_favorite init h)) now
          { st with chat_history := updateChatRow cid (fun _ => flag_favorite init h) st.chat_history }
      else
        { st with chat_history := updateChatRow cid (fun _ => flag_favorite init h) st.chat_history }) := by
  unfold favorite_callback
  rw [hh]

lemma create_connection_some (a b now : Nat) (st : Store) (da db : UserRow)
    (hda : st.records a = some da) (hdb : st.records b = some db) :
    create_connection a b now st =
      (if (st.connections.any fun c => c.user1_id == a && c.user2_id == b) then st
       else { st with connections := st.connections ++ [{ user1_id := a, user2_id := b, user1_snapshot := mkSnapshot da, user2_snapshot := mkSnapshot db, timestamp := now }] }) := by
  unfold create_connection
  rw [hda, hdb]

lemma fav_one_side (st : Store) (cid init now : Nat) (h : ChatRow)
    (hh : lookupChatRow cid st.chat_history = some h)
    (h1 : h.user1_id = init → h.user2_wants_favorite ≠ 1)
    (h2 : h.user1_id ≠ init → h.user1_wants_favorite ≠ 1) :
    (favorite_callback init cid now st).connections = st.connections := by
  rw [favorite_callback_some init cid now st h hh]
  by_cases hi : h.user1_id = init
  · have hflag : flag_favorite init h = { h with user1_wants_favorite := 1 } := by
      unfold flag_favorite
      rw [if_pos hi]
    rw [hflag, if_neg (fun hand => h1 hi hand.2)]
  · have hflag : flag_favorite init h = { h with user2_wants_favorite := 1 } := by
      unfold flag_favorite
      rw [if_neg hi]
    rw [hflag, if_neg (fun hand => h2 hi hand.1)]

lemma fav_mutual_order1 (st : Store) (cid a b now1 now2 : Nat) (h : ChatRow) (da db : UserRow)
    (hh : lookupChatRow cid st.chat_history = some h)
    (hu1 : h.user1_id = a) (hu2 : h.user2_id = b) (hab : a ≠ b)
    (hf2 : h.user2_wants_favorite ≠ 1)
    (hda : st.records a = some da) (hdb : st.records b = some db)
    (h0 : connectionsFor a b st = 0) :
    connectionsFor a b (favorite_callback b cid now2 (favorite_callback a cid now1 st)) = 1 := by
  have h0' : List.countP (fun c =>
      (c.user1_id == a && c.user2_id == b) || (c.user1_id == b && c.user2_id == a))
      st.connections = 0 := h0
  have hflagA : flag_favorite a h = { h with user1_wants_favorite := 1 } := by
    unfold flag_favorite
    rw [if_pos hu1]
  have hs1 : favorite_callback a cid now1 st =
      { st with chat_history := updateChatRow cid (fun _ => { h with user1_wants_favorite := 1 }) st.chat_history } := by
    rw [favorite_callback_some a cid now1 st h hh, hflagA,
      if_neg (fun hand => hf2 hand.2)]
  rw [hs1]
  generalize hG : ({ st with chat_history := updateChatRow cid (fun _ => { h with user1_wants_favorite := 1 }) st.chat_history } : Store) = s1v
  have hrec1 : s1v.records = st.records := by
    rw [← hG]
  have hch1 : s1v.chat_history =
      updateChatRow cid (fun _ => { h with user1_wants_favorite := 1 }) st.chat_history := by
    rw [← hG]
  have hconn1 : s1v.connections = st.connections := by
    rw [← hG]
  have hh1 : lookupChatRow cid s1v.chat_history = some { h with user1_wants_favorite := 1 } := by
    rw [hch1, lookup_updateChatRow, hh]
    rfl
  have hflagB : flag_favorite b { h with user1_wants_favorite := 1 } =
      { h with user1_wants_favorite := 1, user2_wants_favorite := 1 } := by
    unfold flag_favorite
    rw [if_neg (fun hcon => hab (hu1.symm.trans hcon))]
  have hpartB : fav_partner_of b { h with user1_wants_favorite := 1, user2_wants_favorite := 1 } = a := by
    unfold fav_partner_of
    rw [if_neg (fun hcon => hab (hu1.symm.trans hcon))]
    exact hu1
  rw [favorite_callback_some b cid now2 s1v _ hh1, hflagB, hpartB, if_pos ⟨rfl, rfl⟩]
  generalize hG2 : ({ s1v with chat_history := updateChatRow cid (fun _ => { h with user1_wants_favorite := 1, user2_wants_favorite := 1 }) s1v.chat_history } : Store) = s2v
  have hrec2 : s2v.records = st.records := by
    rw [← hG2]
    exact hrec1
  have hconn2 : s2v.connections = st.connections := by
    rw [← hG2]
    exact hconn1
  have hda2 : s2v.records a = some da := by
    rw [hrec2]
    exact hda
  have hdb2 : s2v.records b = some db := by
    rw [hrec2]
    exact hdb
  have hnc : ¬ ((s2v.connections.any fun c => c.user1_id == b && c.user2_id == a) = true) := by
    intro hc
    rw [hconn2, List.any_eq_true] at hc
    obtain ⟨x, hx, hxc⟩ := hc
    exact List.countP_eq_zero.mp h0' x hx (by rw [Bool.or_eq_true]; right; exact hxc)
  rw [create_connection_some b a now2 s2v db da hdb2 hda2, if_neg hnc]
  unfold connectionsFor
  show List.countP _ (s2v.connections ++ [{ user1_id := b, user2_id := a, user1_snapshot := mkSnapshot db, user2_snapshot := mkSnapshot da, timestamp := now2 }]) = 1
  rw [List.countP_append, hconn2, h0']
  simp [List.countP_cons]

lemma fav_mutual_order2 (st : Store) (cid a b now1 now2 : Nat) (h : ChatRow) (da db : UserRow)
    (hh : lookupChatRow cid st.chat_history = some h)
    (hu1 : h.user1_id = a) (hu2 : h.user2_id = b) (hab : a ≠ b)
    (hf1 : h.user1_wants_favorite ≠ 1)
    (hda : st.records a = some da) (hdb : st.records b = some db)
    (h0 : connectionsFor a b st = 0) :
    connectionsFor a b (favorite_callback a cid now2 (favorite_callback b cid now1 st)) = 1 := by
  have h0' : List.countP (fun c =>
      (c.user1_id == a && c.user2_id == b) || (c.user1_id == b && c.user2_id == a))
      st.connections = 0 := h0
  have hflagB : flag_favorite b h = { h with user2_wants_favorite := 1 } := by
    unfold flag_favorite
    rw [if_neg (fun hcon => hab (hu1.symm.trans hcon))]
  have hs1 : favorite_callback b cid now1 st =
      { st with chat_history := updateChatRow cid (fun _ => { h with user2_wants_favorite := 1 }) st.chat_history } := by
    rw [favorite_callback_some b cid now1 st h hh, hflagB,
      if_neg (fun hand => hf1 hand.1)]
  rw [hs1]
  generalize hG : ({ st with chat_history := updateChatRow cid (fun _ => { h with user2_wants_favorite := 1 }) st.chat_history } : Store) = s1v
  have hrec1 : s1v.records = st.records := by
    rw [← hG]
  have hch1 : s1v.chat_history =
      updateChatRow cid (fun _ => { h with user2_wants_favorite := 1 }) st.chat_history := by
    rw [← hG]
  have hconn1 : s1v.connections = st.connections := by
    rw [← hG]
  have hh1 : lookupChatRow cid s1v.chat_history = some { h with user2_wants_favorite := 1 } := by
    rw [hch1, lookup_updateChatRow, hh]
    rfl
  have hflagA : flag_favorite a { h with user2_wants_favorite := 1 } =
      { h with user1_wants_favorite := 1, user2_wants_favorite := 1 } := by
    unfold flag_favorite
    rw [if_pos (show ({ h with user2_wants_favorite := 1 } : ChatRow).user1_id = a from hu1)]
  have hpartA : fav_partner_of a { h with user1_wants_favorite := 1, user2_wants_favorite := 1 } = b := by
    unfold fav_partner_of
    rw [if_pos (show ({ h with user1_wants_favorite := 1, user2_wants_favorite := 1 } : ChatRow).user1_id = a from hu1)]
    exact hu2
  rw [favorite_callback_some a cid now2 s1v _ hh1, hflagA, hpartA, if_pos ⟨rfl, rfl⟩]
  generalize hG2 : ({ s1v with chat_history := updateChatRow cid (fun _ => { h with user1_wants_favorite := 1, user2_wants_favorite := 1 }) s1v.chat_history } : Store) = s2v
  have hrec2 : s2v.records = st.records := by
    rw [← hG2]
    exact hrec1
  have hconn2 : s2v.connections = st.connections := by
    rw [← hG2]
    exact hconn1
  have hda2 : s2v.records a = some da := by
    rw [hrec2]
    exact hda
  have hdb2 : s2v.records b = some db := by
    rw [hrec2]
    exact hdb
  have hnc : ¬ ((s2v.connections.any fun c => c.user1_id == a && c.user2_id == b) = true) := by
    intro hc
    rw [hconn2, List.any_eq_true] at hc
    obtain ⟨x, hx, hxc⟩ := hc
    exact List.countP_eq_zero.mp h0' x hx (by rw [Bool.or_eq_true]; left; exact hxc)
  rw [create_connection_some a b now2 s2v da db hda2 hdb2, if_neg hnc]
  unfold connectionsFor
  show List.countP _ (s2v.connections ++ [{ user1_id := a, user2_id := b, user1_snapshot := mkSnapshot da, user2_snapshot := mkSnapshot db, timestamp := now2 }]) = 1
  rw [List.countP_append, hconn2, h0']
  simp [List.countP_cons]

lemma create_connection_idem (a b now1 now2 : Nat) (st : Store) :
    create_connection a b now2 (create_connection a b now1 st) = create_connection a b now1 st := by
  cases ha : st.records a with
  | none =>
    have h1 : ∀ t, create_connection a b t st = st := fun t => by
      unfold create_connection
      rw [ha]
    rw [h1 now1]
    exact h1 now2
  | some da =>
    cases hb : st.records b with
    | none =>
      have h1 : ∀ t, create_connection a b t st = st := fun t => by
        unfold create_connection
        rw [ha, hb]
      rw [h1 now1]
      exact h1 now2
    | some db =>
      by_cases hconf : (st.connections.any fun c => c.user1_id == a && c.user2_id == b) = true
      · rw [create_connection_some a b now1 st da db ha hb, if_pos hconf,
          create_connection_some a b now2 st da db ha hb, if_pos hconf]
      · rw [create_connection_some a b now1 st da db ha hb, if_neg hconf]
        have ha2 : ({ st with connections := st.connections ++ [{ user1_id := a, user2_id := b, user1_snapshot := mkSnapshot da, user2_snapshot := mkSnapshot db, timestamp := now1 }] } : Store).records a = some da := ha
        have hb2 : ({ st with connections := st.connections ++ [{ user1_id := a, user2_id := b, user1_snapshot := mkSnapshot da, user2_snapshot := mkSnapshot db, timestamp := now1 }] } : Store).records b = some db := hb
        rw [create_connection_some a b now2 _ da db ha2 hb2]
        rw [if_pos (show (({ st with connections := st.connections ++ [{ user1_id := a, user2_id := b, user1_snapshot := mkSnapshot da, user2_snapshot := mkSnapshot db, timestamp := now1 }] } : Store).connections.any
            fun c => c.user1_id == a && c.user2_id == b) = true by
          show ((st.connections ++ _).any _) = true
          rw [List.any_append]
          simp)]

/-- C5 counterexample: in chat 1 between users 10 and 20, user 10 flags,
user 20 flags (mutual: `create_connection(20, 10)` inserts one row), and
a repeated flag attempt by user 10 triggers `create_connection(10, 20)`;
the `ON CONFLICT (user1_id, user2_id)` target is the *ordered* pair, so
the stored (20, 10) row does not conflict and a second Connection row for
the same unordered pair is inserted — a duplicate attempt with the
participants in the opposite order is not a no-op, and more than one
Connection exists for the unordered pair. -/
theorem c5_counterexample_opposite_order :
    connectionsFor 10 20 (favorite_callback 20 1 0 (favorite_callback 10 1 0 favStore)) = 1 ∧
    connectionsFor 10 20 favStoreAfterClicks = 2 := by
  constructor
  · rfl
  · rfl

/-- C5 (amended): flagging "wants favorite" from only one side never
creates a Connection; flagging from both sides — in either order —
creates exactly one Connection for the pair; and a duplicate creation
attempt with the participants in the *same* order is a no-op.
(Uniqueness holds per ordered pair only: an attempt with the
participants in the opposite order inserts a second row, see the
counterexample.) -/
theorem c5_favorites_amended :
    (∀ st cid init now h, lookupChatRow cid st.chat_history = some h →
      (h.user1_id = init → h.user2_wants_favorite ≠ 1) →
      (h.user1_id ≠ init → h.user1_wants_favorite ≠ 1) →
      (favorite_callback init cid now st).connections = st.connections) ∧
    (∀ st cid a b now1 now2 h da db, lookupChatRow cid st.chat_history = some h →
      h.user1_id = a → h.user2_id = b → a ≠ b →
      h.user1_wants_favorite ≠ 1 → h.user2_wants_favorite ≠ 1 →
      st.records a = some da → st.records b = some db →
      connectionsFor a b st = 0 →
      connectionsFor a b (favorite_callback b cid now2 (favorite_callback a cid now1 st)) = 1 ∧
      connectionsFor a b (favorite_callback a cid now2 (favorite_callback b cid now1 st)) = 1) ∧
    (∀ a b now1 now2 st,
      create_connection a b now2 (create_connection a b now1 st) = create_connection a b now1 st) :=
  ⟨fun st cid init now h hh h1 h2 => fav_one_side st cid init now h hh h1 h2,
   fun st cid a b now1 now2 h da db hh hu1 hu2 hab hf1 hf2 hda hdb h0 =>
     ⟨fav_mutual_order1 st cid a b now1 now2 h da db hh hu1 hu2 hab hf2 hda hdb h0,
      fav_mutual_order2 st cid a b now1 now2 h da db hh hu1 hu2 hab hf1 hda hdb h0⟩,
   fun a b now1 now2 st => create_connection_idem a b now1 now2 st⟩

/-- Witness for C5's amended statement on the concrete two-user store. -/
theorem c5_favorites_amended_witness :
    (favorite_callback 10 1 0 favStore).connections = favStore.connections ∧
    connectionsFor 10 20 (favorite_callback 20 1 0 (favorite_callback 10 1 0 favStore)) = 1 ∧
    connectionsFor 10 20 (favorite_callback 10 1 0 (favorite_callback 20 1 0 favStore)) = 1 ∧
    create_connection 10 20 1 (create_connection 10 20 0 favStore) =
      create_connection 10 20 0 favStore := by
  obtain ⟨p1, p2, p3⟩ := c5_favorites_amended
  have hmut := p2 favStore 1 10 20 0 0 { user1_id := 10, user2_id := 20 }
    (waitingUser 10) (waitingUser 20) rfl rfl rfl (by decide) (by decide) (by decide) rfl rfl rfl
  exact ⟨p1 favStore 1 10 0 { user1_id := 10, user2_id := 20 } rfl
      (fun _ => by decide) (fun hc => absurd rfl hc),
    hmut.1, hmut.2, p3 10 20 0 1 favStore⟩

lemma getD_mem_cons (e : UserRow) (es : List UserRow) (n : Nat) :
    (e :: es).getD n e ∈ e :: es := by
  by_cases hn : n < (e :: es).length
  · rw [List.getD_eq_getElem _ _ hn]
    exact List.getElem_mem hn
  · rw [List.getD_eq_default _ _ (Nat.le_of_not_lt hn)]
    exact List.mem_cons_self e es

lemma pairMembers_cons (x y : Nat) (ps : List (Nat × Nat)) :
    pairMembers ((x, y) :: ps) = x :: y :: pairMembers ps := rfl

lemma run_matching_loop_nodup : ∀ (fuel : Nat) (pool : List UserRow) (oracle : List Nat),
    (pool.map UserRow.user_id).Nodup →
    (pairMembers (run_matching_loop fuel pool oracle)).Nodup ∧
    ∀ x ∈ pairMembers (run_matching_loop fuel pool oracle), x ∈ pool.map UserRow.user_id := by
  intro fuel
  induction fuel with
  | zero =>
    intro pool oracle hnd
    exact ⟨List.nodup_nil, fun x hx => absurd hx (by simp [run_matching_loop, pairMembers])⟩
  | succ fuel ih =>
    intro pool oracle hnd
    cases pool with
    | nil =>
      exact ⟨List.nodup_nil, fun x hx => absurd hx (by simp [run_matching_loop, pairMembers])⟩
    | cons searcher rest =>
      cases rest with
      | nil =>
        exact ⟨List.nodup_nil, fun x hx => absurd hx (by simp [run_matching_loop, pairMembers])⟩
      | cons nx rest0 =>
        have hnd2 : (UserRow.user_id searcher :: (nx :: rest0).map UserRow.user_id).Nodup := by
          simpa using hnd
        have hsn : searcher.user_id ∉ (nx :: rest0).map UserRow.user_id :=
          (List.nodup_cons.mp hnd2).1
        have hndrest : ((nx :: rest0).map UserRow.user_id).Nodup :=
          (List.nodup_cons.mp hnd2).2
        cases hflt : (nx :: rest0).filter (fun p => check_mutual_match searcher p) with
        | nil =>
          have heq : run_matching_loop (fuel + 1) (searcher :: nx :: rest0) oracle =
              run_matching_loop fuel (nx :: rest0) oracle := by
            conv_lhs => unfold run_matching_loop
            rw [hflt]
          rw [heq]
          obtain ⟨ihn, ihs⟩ := ih (nx :: rest0) oracle hndrest
          refine ⟨ihn, fun x hx => ?_⟩
          rw [List.map_cons]
          exact List.mem_cons_of_mem _ (ihs x hx)
        | cons e es =>
          have hmem0 : (e :: es).getD (oracle.headD 0 % (e :: es).length) e ∈ e :: es :=
            getD_mem_cons e es _
          have hmem1 : (e :: es).getD (oracle.headD 0 % (e :: es).length) e ∈
              (nx :: rest0).filter (fun p => check_mutual_match searcher p) := by
            rw [hflt]
            exact hmem0
          have hmem : (e :: es).getD (oracle.headD 0 % (e :: es).length) e ∈ nx :: rest0 :=
            (List.mem_filter.mp hmem1).1
          have heq : run_matching_loop (fuel + 1) (searcher :: nx :: rest0) oracle =
              (searcher.user_id, ((e :: es).getD (oracle.headD 0 % (e :: es).length) e).user_id) ::
                run_matching_loop fuel
                  ((nx :: rest0).erase ((e :: es).getD (oracle.headD 0 % (e :: es).length) e))
                  oracle.tail := by
            conv_lhs => unfold run_matching_loop
            rw [hflt]
          rw [heq]
          revert hmem
          generalize (e :: es).getD (oracle.headD 0 % (e :: es).length) e = chosen
          intro hmem
          have hcid : chosen.user_id ∈ (nx :: rest0).map UserRow.user_id :=
            List.mem_map_of_mem _ hmem
          have hperm : List.Perm ((nx :: rest0).map UserRow.user_id)
              ((chosen :: (nx :: rest0).erase chosen).map UserRow.user_id) :=
            (List.perm_cons_erase hmem).map _
          have hndc : ((chosen :: (nx :: rest0).erase chosen).map UserRow.user_id).Nodup :=
            hperm.nodup_iff.mp hndrest
          rw [List.map_cons] at hndc
          have hcnot : chosen.user_id ∉ ((nx :: rest0).erase chosen).map UserRow.user_id :=
            (List.nodup_cons.mp hndc).1
          have hnde : (((nx :: rest0).erase chosen).map UserRow.user_id).Nodup :=
            (List.nodup_cons.mp hndc).2
          obtain ⟨ihn, ihs⟩ := ih ((nx :: rest0).erase chosen) oracle.tail hnde
          have hsub : ∀ x ∈ ((nx :: rest0).erase chosen).map UserRow.user_id,
              x ∈ (nx :: rest0).map UserRow.user_id := by
            intro x hx
            exact hperm.symm.subset (by rw [List.map_cons]; exact List.mem_cons_of_mem _ hx)
          rw [pairMembers_cons]
          constructor
          · rw [List.nodup_cons, List.nodup_cons]
            refine ⟨?_, ?_, ihn⟩
            · intro hin
              rcases List.mem_cons.mp hin with hin | hin
              · rw [hin] at hsn
                exact hsn hcid
              · exact hsn (hsub _ (ihs _ hin))
            · intro hin
              exact hcnot (ihs _ hin)
          · intro x hx
            rcases List.mem_cons.mp hx with hx | hx
            · rw [List.map_cons, hx]
              exact List.mem_cons_self _ _
            · rcases List.mem_cons.mp hx with hx | hx
              · rw [List.map_cons, hx]
                exact List.mem_cons_of_mem _ hcid
              · rw [List.map_cons]
                exact List.mem_cons_of_mem _ (hsub _ (ihs _ hx))

/-- C4: one matching pass never books a client into two new sessions and
never pairs a client with itself: assuming the pool snapshot has distinct
user ids (they come from a primary-keyed table), the participant ids of
the produced pairs are pairwise distinct, and each pair's two sides
differ. -/
theorem c4_pairing_exclusive (pool : List UserRow) (oracle : List Nat)
    (hnd : (pool.map UserRow.user_id).Nodup) :
    (pairMembers (run_matching_algorithm pool oracle)).Nodup ∧
    ∀ q ∈ run_matching_algorithm pool oracle, q.1 ≠ q.2 := by
  obtain ⟨h0, _⟩ := run_matching_loop_nodup pool.length pool oracle hnd
  have h1 : (pairMembers (run_matching_algorithm pool oracle)).Nodup := h0
  refine ⟨h1, fun q hq => ?_⟩
  obtain ⟨s, t, hst⟩ := List.append_of_mem hq
  have hpm : pairMembers (run_matching_algorithm pool oracle) =
      pairMembers s ++ (q.1 :: q.2 :: pairMembers t) := by
    unfold run_matching_algorithm at hst ⊢
    rw [hst]
    unfold pairMembers
    rw [List.flatMap_append]
    rfl
  rw [hpm] at h1
  have h2 := h1.of_append_right
  have h3 := List.nodup_cons.mp h2
  intro hqe
  exact h3.1 (by rw [hqe]; exact List.mem_cons_self _ _)

/-- Witness for C4: two compatible waiting users produce the single pair
(1, 2); the participant list [1, 2] has no duplicates and no self-pair
occurs. -/
theorem c4_pairing_exclusive_witness :
    run_matching_algorithm [waitingUser 1, waitingUser 2] [0] = [(1, 2)] ∧
    (pairMembers (run_matching_algorithm [waitingUser 1, waitingUser 2] [0])).Nodup ∧
    ∀ q ∈ run_matching_algorithm [waitingUser 1, waitingUser 2] [0], q.1 ≠ q.2 := by
  refine ⟨by decide, ?_, ?_⟩
  · exact (c4_pairing_exclusive [waitingUser 1, waitingUser 2] [0] (by decide)).1
  · exact (c4_pairing_exclusive [waitingUser 1, waitingUser 2] [0] (by decide)).2

end FireTalk
